import Mathlib

/-!
Verification of the platform-resolver and build-plan-renderer core of
`src/impl/src/bazel.rs` (cargo-raze).  The Rust functions are shallowly
embedded as Lean definitions; external collaborators (the cfg-expr
expression language and its builtin target table, the Tera template
engine, the filesystem) are represented by explicit data or by function
parameters, so that the control flow of `bazel.rs` itself is modelled
faithfully.
-/

/-! ## Expression model (external cfg-expr crate)

The conditional-expression language evaluated by `bazel.rs` comes from the
third-party `cfg_expr` crate: an expression is a boolean combination
(`not` / `all(..)` / `any(..)`) of leaf predicates.  `bazel.rs` consumes it
only through `Expression::parse` and `Expression::eval`; parsing is
represented below by an `Option CfgExpr` input (`none` = parse failure),
and `eval` is the standard recursive evaluation under a caller-supplied
leaf valuation, exactly the interface the Rust code uses. -/

/-- Target attributes of one builtin target, as exposed by the cfg-expr
builtin target table (`get_builtin_target_by_triple`).  Optional fields are
absent on targets that do not define the attribute. -/
structure TargetInfo where
  triple : String
  arch : String
  vendor : Option String
  os : Option String
  env : Option String
  family : Option String
  pointer_width : Nat
  endian : String
deriving Repr, DecidableEq

/-- Leaf target predicates of the cfg-expr language (`target_arch`,
`target_os`, `target_family`, ...). -/
inductive TargetPredicate where
  | arch (s : String)
  | endian (s : String)
  | env (s : String)
  | family (s : String)
  | os (s : String)
  | pointerWidth (n : Nat)
  | vendor (s : String)
deriving Repr, DecidableEq

/-- Matching of a target predicate against the attributes of a builtin
target, as performed by `TargetPredicate::matches` in cfg-expr. -/
def TargetPredicate.matches : TargetPredicate → TargetInfo → Bool
  | .arch s, ti => s == ti.arch
  | .endian s, ti => s == ti.endian
  | .env s, ti => ti.env == some s
  | .family s, ti => ti.family == some s
  | .os s, ti => ti.os == some s
  | .pointerWidth n, ti => n == ti.pointer_width
  | .vendor s, ti => ti.vendor == some s

/-- Leaf predicates of a parsed cfg expression.  `target` carries a
structured target-attribute predicate; `keyValue` is a generic
`key = "value"` pair; `other` stands for every remaining predicate kind of
cfg-expr (`test`, `debug_assertions`, `proc_macro`, `feature`,
`target_feature`, flags), which `bazel.rs` never matches. -/
inductive CfgPredicate where
  | target (tp : TargetPredicate)
  | keyValue (key val : String)
  | other
deriving Repr, DecidableEq

/-- Parsed conditional expression: a leaf predicate or a boolean
combination, mirroring `cfg_expr::Expression` (with n-ary `all` / `any`). -/
inductive CfgExpr where
  | pred (p : CfgPredicate)
  | notE (e : CfgExpr)
  | allE (es : List CfgExpr)
  | anyE (es : List CfgExpr)
deriving Repr

/-- Recursive evaluation of a parsed expression under a leaf valuation,
mirroring `Expression::eval` of cfg-expr. -/
def eval (f : CfgPredicate → Bool) : CfgExpr → Bool
  | .pred p => f p
  | .notE e => !(eval f e)
  | .allE [] => true
  | .allE (e :: es) => eval f e && eval f (.allE es)
  | .anyE [] => false
  | .anyE (e :: es) => eval f e || eval f (.anyE es)
termination_by e => sizeOf e

/-! ## Platform catalog (`SUPPORTED_PLATFORM_TRIPLES` of bazel.rs) -/

/-- The compiled-in catalog of supported platform triples, in source
order: the six tier-1 triples followed by the twelve tier-2 triples. -/
def SUPPORTED_PLATFORM_TRIPLES : List String := [
  -- SUPPORTED_T1_PLATFORM_TRIPLES
  "i686-apple-darwin",
  "i686-pc-windows-gnu",
  "i686-unknown-linux-gnu",
  "x86_64-apple-darwin",
  "x86_64-pc-windows-gnu",
  "x86_64-unknown-linux-gnu",
  -- SUPPORTED_T2_PLATFORM_TRIPLES
  "aarch64-apple-ios",
  "aarch64-linux-android",
  "aarch64-unknown-linux-gnu",
  "arm-unknown-linux-gnueabi",
  "i686-linux-android",
  "i686-unknown-freebsd",
  "powerpc-unknown-linux-gnu",
  "s390x-unknown-linux-gnu",
  "wasm32-unknown-unknown",
  "x86_64-apple-ios",
  "x86_64-linux-android",
  "x86_64-unknown-freebsd",
]

/-- Builtin target table of the external cfg-expr crate, restricted to the
triples of the catalog (the only entries `bazel.rs` relies on: the
specification calls this the Catalog lookup).  Field order:
triple, arch, vendor, os, env, family, pointer width, endian. -/
def builtin_targets : List TargetInfo := [
  ⟨"i686-apple-darwin", "x86", some "apple", some "macos", none, some "unix", 32, "little"⟩,
  ⟨"i686-pc-windows-gnu", "x86", some "pc", some "windows", some "gnu", some "windows", 32, "little"⟩,
  ⟨"i686-unknown-linux-gnu", "x86", some "unknown", some "linux", some "gnu", some "unix", 32, "little"⟩,
  ⟨"x86_64-apple-darwin", "x86_64", some "apple", some "macos", none, some "unix", 64, "little"⟩,
  ⟨"x86_64-pc-windows-gnu", "x86_64", some "pc", some "windows", some "gnu", some "windows", 64, "little"⟩,
  ⟨"x86_64-unknown-linux-gnu", "x86_64", some "unknown", some "linux", some "gnu", some "unix", 64, "little"⟩,
  ⟨"aarch64-apple-ios", "aarch64", some "apple", some "ios", none, some "unix", 64, "little"⟩,
  ⟨"aarch64-linux-android", "aarch64", some "unknown", some "android", none, some "unix", 64, "little"⟩,
  ⟨"aarch64-unknown-linux-gnu", "aarch64", some "unknown", some "linux", some "gnu", some "unix", 64, "little"⟩,
  ⟨"arm-unknown-linux-gnueabi", "arm", some "unknown", some "linux", some "gnu", some "unix", 32, "little"⟩,
  ⟨"i686-linux-android", "x86", some "unknown", some "android", none, some "unix", 32, "little"⟩,
  ⟨"i686-unknown-freebsd", "x86", some "unknown", some "freebsd", none, some "unix", 32, "little"⟩,
  ⟨"powerpc-unknown-linux-gnu", "powerpc", some "unknown", some "linux", some "gnu", some "unix", 32, "big"⟩,
  ⟨"s390x-unknown-linux-gnu", "s390x", some "unknown", some "linux", some "gnu", some "unix", 64, "big"⟩,
  ⟨"wasm32-unknown-unknown", "wasm32", some "unknown", none, none, none, 32, "little"⟩,
  ⟨"x86_64-apple-ios", "x86_64", some "apple", some "ios", none, some "unix", 64, "little"⟩,
  ⟨"x86_64-linux-android", "x86_64", some "unknown", some "android", none, some "unix", 64, "little"⟩,
  ⟨"x86_64-unknown-freebsd", "x86_64", some "unknown", some "freebsd", none, some "unix", 64, "little"⟩,
]

/-- Lookup of a triple in the builtin target table, mirroring
`get_builtin_target_by_triple` of cfg-expr. -/
def get_builtin_target_by_triple (triple : String) : Option TargetInfo :=
  builtin_targets.find? (fun ti => ti.triple == triple)

/-! ## Platform resolver (bazel.rs lines 80-190) -/

/-- Leaf valuation used by `is_bazel_supported_platform`: target-attribute
predicates are matched against the builtin attributes, a key/value
predicate whose key is `target` compares the value with the exact triple
identifier, and every other predicate kind evaluates false. -/
def classification_leaf (target_info : TargetInfo) : CfgPredicate → Bool
  | .target tp => tp.matches target_info
  | .keyValue key val => key == "target" && val == target_info.triple
  | .other => false

/-- Leaf valuation used by `get_matching_bazel_triples`: only
target-attribute predicates are consulted; every other predicate kind
(including key/value pairs) evaluates false. -/
def matching_leaf (target_info : TargetInfo) : CfgPredicate → Bool
  | .target tp => tp.matches target_info
  | _ => false

/-- Embedding of `is_bazel_supported_platform` (bazel.rs lines 80-121).
The input is the parse result of the bare-triple-normalized target
expression (`none` when `Expression::parse` fails).  On success the
function folds over the catalog with the two mutable flags of the source:
`is_supported` starts false and is set on a match, `matches_all` starts
true and is cleared on a non-match. -/
def is_bazel_supported_platform (parsed : Option CfgExpr) : Bool × Bool :=
  match parsed with
  | none => (false, false)
  | some expression =>
    (SUPPORTED_PLATFORM_TRIPLES.filterMap get_builtin_target_by_triple).foldl
      (fun acc target_info =>
        if eval (classification_leaf target_info) expression
        then (true, acc.2)
        else (acc.1, false))
      (false, true)

/-- Embedding of `get_matching_bazel_triples` (bazel.rs lines 128-153).
A parse failure is propagated to the caller (modelled as `Except.error`);
otherwise the catalog is filtered, in catalog order, by evaluation of the
expression under the target-only leaf valuation, each retained entry
contributing the exact triple identifier of its builtin target. -/
def get_matching_bazel_triples (parsed : Option CfgExpr) : Except Unit (List String) :=
  match parsed with
  | none => .error ()
  | some expression =>
    .ok (SUPPORTED_PLATFORM_TRIPLES.filterMap (fun triple =>
      match get_builtin_target_by_triple triple with
      | none => none
      | some target_info =>
        if eval (matching_leaf target_info) expression
        then some target_info.triple
        else none))

/-- Lexicographic order on strings by character data, matching the
byte-lexicographic order used by the Rust `sort` on `String`. -/
def str_le (a b : String) : Prop := a.data ≤ b.data

instance : DecidableRel str_le := fun a b => by
  unfold str_le
  infer_instance

instance : IsTotal String str_le := ⟨fun a b => le_total a.data b.data⟩

instance : IsTrans String str_le := ⟨fun _ _ _ hab hbc => le_trans hab hbc⟩

/-- Embedding of `filter_bazel_triples` (bazel.rs lines 156-166).  The
in-place mutation of the source becomes a returned list: with an empty
whitelist the input is returned untouched (early return before any sort);
otherwise the entries found in the whitelist are retained and the result
is sorted. -/
def filter_bazel_triples (triples triples_whitelist : List String) : List String :=
  if triples_whitelist.length = 0 then
    triples
  else
    List.insertionSort str_le
      (triples.filter (fun triple => triples_whitelist.any (fun i => i == triple)))

/-- Embedding of `generate_bazel_conditions` (bazel.rs lines 171-190).
The sanity-check loop of the source returns the error of the first triple
missing from the builtin table; on success every triple is mapped to its
platform-selector label and the labels are sorted. -/
def generate_bazel_conditions (triples : List String) : Except String (List String) :=
  match triples.find? (fun triple => (get_builtin_target_by_triple triple).isNone) with
  | some triple => .error ("Not a triple: " ++ triple)
  | none =>
    .ok (List.insertionSort str_le
      (triples.map (fun triple => "@io_bazel_rules_rust//rust/platform:" ++ triple)))

/-! ## Renderer data model (context.rs / planning.rs / rendering.rs records)

The passive records below come from modules of the repository outside
bazel.rs; only the fields that bazel.rs or the templates consume are
modelled.  The Tera template engine and the filesystem are external
collaborators: each generated template becomes an abstract fallible
rendering function carried by the `BazelRenderer` record, and the one
filesystem read of the core is a caller-supplied `read_to_string`
function. -/

/-- Workspace description consumed by rendering. -/
structure WorkspaceContext where
  workspace_path : String
  gen_workspace_prefix : String
  output_buildfile_suffix : String
deriving Repr, DecidableEq

/-- Per-crate settings; bazel.rs reads only the optional path of a raw
build-file fragment to splice in. -/
structure CrateSettings where
  additional_build_file : Option String
deriving Repr, DecidableEq

/-- Per-crate build description.  The full record of context.rs carries
further fields (edition, features, dependency bundles, targets, ...) that
bazel.rs passes opaquely to the template engine; the fields modelled here
are the ones bazel.rs itself reads plus the ones the fetch-declarations
template consumes. -/
structure CrateContext where
  pkg_name : String
  pkg_version : String
  raze_settings : CrateSettings
  expected_build_path : String
  is_root_dependency : Bool
  sha256 : Option String
  registry_url : String
deriving Repr, DecidableEq

/-- Output-path configuration of a render pass. -/
structure RenderDetails where
  path_prefix : String
  buildfile_suffix : String
deriving Repr, DecidableEq

/-- The single input to rendering. -/
structure PlannedBuild where
  workspace_context : WorkspaceContext
  crate_contexts : List CrateContext
deriving Repr, DecidableEq

/-- The sole output unit of rendering: a relative path and full text
contents. -/
structure FileOutputs where
  path : String
  contents : String
deriving Repr, DecidableEq

/-- Error of the external Tera template engine, modelled as its top-level
message together with the messages of its cause chain, top to bottom. -/
structure TeraError where
  message : String
  causes : List String
deriving Repr, DecidableEq

/-- Rendering error of the repository (util.rs); bazel.rs constructs only
this variant. -/
inductive RazeError where
  | rendering (crate_name_opt : Option String) (message : String)
deriving Repr, DecidableEq

/-- Embedding of the error-unwinding helper of bazel.rs (lines 371-381):
the top-level message is collected first, then each message of the cause
chain, and the collected messages are joined with the indent marker. -/
def unwind_tera_error (e : TeraError) : String :=
  String.intercalate "\n└─" (e.message :: e.causes)

/-- Abstract renderer state: one fallible rendering function per template
actually used by bazel.rs.  The vendor and remote entry points share
templates: `render_crate` and `render_remote_crate` both render
crate.BUILD.template, `render_aliases` and `render_remote_aliases` both
render workspace.BUILD.template. -/
structure BazelRenderer where
  crate_template : WorkspaceContext → CrateContext → Except TeraError String
  aliases_template : WorkspaceContext → List CrateContext → Except TeraError String
  bzl_fetch_template : WorkspaceContext → List CrateContext → Except TeraError String

/-- Embedding of `BazelRenderer::render_crate` (crate.BUILD.template). -/
def BazelRenderer.render_crate (r : BazelRenderer) (ws : WorkspaceContext)
    (package : CrateContext) : Except TeraError String :=
  r.crate_template ws package

/-- Embedding of `BazelRenderer::render_aliases`
(workspace.BUILD.template). -/
def BazelRenderer.render_aliases (r : BazelRenderer) (ws : WorkspaceContext)
    (all_packages : List CrateContext) : Except TeraError String :=
  r.aliases_template ws all_packages

/-- Embedding of `BazelRenderer::render_remote_crate`: renders the same
crate.BUILD.template as the vendor variant. -/
def BazelRenderer.render_remote_crate (r : BazelRenderer) (ws : WorkspaceContext)
    (package : CrateContext) : Except TeraError String :=
  r.crate_template ws package

/-- Embedding of `BazelRenderer::render_remote_aliases`: renders the same
workspace.BUILD.template as the vendor variant. -/
def BazelRenderer.render_remote_aliases (r : BazelRenderer) (ws : WorkspaceContext)
    (all_packages : List CrateContext) : Except TeraError String :=
  r.aliases_template ws all_packages

/-- Embedding of `BazelRenderer::render_bzl_fetch`
(remote_crates.bzl.template). -/
def BazelRenderer.render_bzl_fetch (r : BazelRenderer) (ws : WorkspaceContext)
    (all_packages : List CrateContext) : Except TeraError String :=
  r.bzl_fetch_template ws all_packages

/-- Embedding of `include_additional_build_file` (bazel.rs lines
349-369).  `read_to_string` is the filesystem read, external to the core;
its error message is the display of the underlying I/O error. -/
def include_additional_build_file (read_to_string : String → Except String String)
    (package : CrateContext) (existing_contents : String) : Except RazeError String :=
  match package.raze_settings.additional_build_file with
  | some file_path =>
    match read_to_string file_path with
    | .error e =>
      .error (.rendering (some package.pkg_name)
        ("failed to read additional_build_file: " ++ e))
    | .ok additional_content =>
      .ok (existing_contents ++ "\n# Additional content from " ++ file_path
        ++ "\n" ++ additional_content)
  | none => .ok existing_contents

/-- Per-crate loop of `render_planned_build` (bazel.rs lines 401-417):
renders each crate in input order, maps a template failure to a rendering
error with crate name `none`, splices the additional build file, and
records the output at the prefixed expected build path. -/
def vendor_crate_outputs (r : BazelRenderer)
    (read_to_string : String → Except String String) ( path_prefix : String)
    (ws : WorkspaceContext) : List CrateContext → Except RazeError (List FileOutputs)
  | [] => .ok []
  | package :: rest => do
    let rendered_crate_build_file ←
      (r.render_crate ws package).mapError
        (fun e => RazeError.rendering none (unwind_tera_error e))
    let final_crate_build_file ←
      include_additional_build_file read_to_string package rendered_crate_build_file
    let outs ← vendor_crate_outputs r read_to_string path_prefix ws rest
    pure (⟨ path_prefix ++ "/" ++ package.expected_build_path, final_crate_build_file⟩ :: outs)

/-- Embedding of `render_planned_build` (bazel.rs lines 384-432, vendor
mode): the per-crate outputs in input order, followed by the root build
file at the prefixed buildfile suffix. -/
def render_planned_build (r : BazelRenderer)
    (read_to_string : String → Except String String)
    (render_details : RenderDetails) (planned_build : PlannedBuild) :
    Except RazeError (List FileOutputs) := do
  let crate_outs ← vendor_crate_outputs r read_to_string ( RenderDetails.path_prefix render_details)
    planned_build.workspace_context planned_build.crate_contexts
  let rendered_alias_build_file ←
    (r.render_aliases planned_build.workspace_context planned_build.crate_contexts).mapError
      (fun e => RazeError.rendering none (unwind_tera_error e))
  pure (crate_outs ++
    [⟨ RenderDetails.path_prefix render_details ++ "/" ++ render_details.buildfile_suffix,
      rendered_alias_build_file⟩])

/-- Per-crate loop of `render_remote_planned_build` (bazel.rs lines
457-472): identical to the vendor loop except that a template failure is
attributed to the crate by name. -/
def remote_crate_outputs (r : BazelRenderer)
    (read_to_string : String → Except String String) ( path_prefix : String)
    (ws : WorkspaceContext) : List CrateContext → Except RazeError (List FileOutputs)
  | [] => .ok []
  | package :: rest => do
    let rendered_crate_build_file ←
      (r.render_remote_crate ws package).mapError
        (fun e => RazeError.rendering (some package.pkg_name) (unwind_tera_error e))
    let final_crate_build_file ←
      include_additional_build_file read_to_string package rendered_crate_build_file
    let outs ← remote_crate_outputs r read_to_string path_prefix ws rest
    pure (⟨ path_prefix ++ "/" ++ package.expected_build_path, final_crate_build_file⟩ :: outs)

/-- Embedding of `render_remote_planned_build` (bazel.rs lines 434-501,
remote mode): the empty placeholder under the remote segment first, then
the per-crate outputs in input order, then the alias file at the
non-remote path, then the crates.bzl fetch file. -/
def render_remote_planned_build (r : BazelRenderer)
    (read_to_string : String → Except String String)
    (render_details : RenderDetails) (planned_build : PlannedBuild) :
    Except RazeError (List FileOutputs) := do
  let crate_outs ← remote_crate_outputs r read_to_string ( RenderDetails.path_prefix render_details)
    planned_build.workspace_context planned_build.crate_contexts
  let rendered_alias_build_file ←
    (r.render_remote_aliases planned_build.workspace_context
      planned_build.crate_contexts).mapError
      (fun e => RazeError.rendering none (unwind_tera_error e))
  let rendered_bzl_fetch_file ←
    (r.render_bzl_fetch planned_build.workspace_context
      planned_build.crate_contexts).mapError
      (fun e => RazeError.rendering none (unwind_tera_error e))
  pure (⟨ RenderDetails.path_prefix render_details ++ "/remote/" ++ render_details.buildfile_suffix, ""⟩ ::
    (crate_outs ++
      [⟨ RenderDetails.path_prefix render_details ++ "/" ++ render_details.buildfile_suffix,
        rendered_alias_build_file⟩,
       ⟨ RenderDetails.path_prefix render_details ++ "/crates.bzl", rendered_bzl_fetch_file⟩]))

/-- Modelled from the spec: remote planning (planning.rs, which is not
under src/) nests every expected crate build path under a `remote/` path
segment, so that remote-mode crate build files land beneath the remote
directory of the output prefix. -/
def remote_planned (planned_build : PlannedBuild) : Prop :=
  ∀ c ∈ planned_build.crate_contexts, ∃ rest, c.expected_build_path = "remote/" ++ rest

/-- One fetch-rule invocation of the crates.bzl file: crate name, version,
optional checksum, download URL. -/
structure FetchDecl where
  name : String
  version : String
  sha256 : Option String
  registry_url : String
deriving Repr, DecidableEq

/-- Modelled from the spec: the fetch-declarations template
(templates/remote_crates.bzl.template, which is not under src/) emits one
fetch-rule invocation per crate (name, version, checksum if present,
download URL) in crate-list order; the rendered crates.bzl file is
modelled by the list of fetch-rule invocations it contains. -/
def fetch_declarations (crates : List CrateContext) : List FetchDecl :=
  crates.map (fun c => ⟨c.pkg_name, c.pkg_version, c.sha256, c.registry_url⟩)

/-! ## Fixtures for concrete evaluations -/

/-- Renderer whose three templates always succeed with fixed bodies. -/
def ok_renderer : BazelRenderer :=
  ⟨fun _ _ => .ok "crate body", fun _ _ => .ok "alias body", fun _ _ => .ok "fetch body"⟩

/-- Renderer whose per-crate template fails with a two-level cause chain. -/
def fail_crate_renderer : BazelRenderer :=
  ⟨fun _ _ => .error ⟨"boom", ["cause"]⟩, fun _ _ => .ok "alias body",
   fun _ _ => .ok "fetch body"⟩

/-- Filesystem oracle on which every read fails. -/
def no_fs : String → Except String String := fun _ => .error "No such file"

/-- Filesystem oracle exposing a single readable file. -/
def fs_readme : String → Except String String := fun p =>
  if p == "README.md" then .ok "extra content" else .error "No such file"

/-- Workspace fixture mirroring the dummy workspace of the repository
tests. -/
def sample_workspace : WorkspaceContext := ⟨"//workspace/prefix", "", "BUILD"⟩

/-- Render-details fixture mirroring the dummy details of the repository
tests. -/
def sample_details : RenderDetails := ⟨"./some_render_prefix", "BUILD"⟩

/-- Vendor-mode crate fixture. -/
def sample_crate : CrateContext :=
  ⟨"test-binary", "1.1.1", ⟨none⟩, "vendor/test-binary-1.1.1/BUILD", true, none,
   "https://crates.io/api/v1/crates/test-binary/1.1.1/download"⟩

/-- Remote-mode crate fixture, with its expected build path under the
remote segment. -/
def sample_remote_crate : CrateContext :=
  ⟨"test-binary", "1.1.1", ⟨none⟩, "remote/test-binary-1.1.1.BUILD", true, none,
   "https://crates.io/api/v1/crates/test-binary/1.1.1/download"⟩

/-- Crate fixture declaring an additional build file. -/
def crate_with_additional : CrateContext :=
  ⟨"test-library", "1.1.1", ⟨some "README.md"⟩, "vendor/test-library-1.1.1/BUILD", true, none,
   "https://crates.io/api/v1/crates/test-library/1.1.1/download"⟩

/-- Expected outputs of the vendor-mode fixture run. -/
def sample_vendor_outs : List FileOutputs :=
  [⟨"./some_render_prefix/vendor/test-binary-1.1.1/BUILD", "crate body"⟩,
   ⟨"./some_render_prefix/BUILD", "alias body"⟩]

/-- Expected outputs of the remote-mode fixture run. -/
def sample_remote_outs : List FileOutputs :=
  [⟨"./some_render_prefix/remote/BUILD", ""⟩,
   ⟨"./some_render_prefix/remote/test-binary-1.1.1.BUILD", "crate body"⟩,
   ⟨"./some_render_prefix/BUILD", "alias body"⟩,
   ⟨"./some_render_prefix/crates.bzl", "fetch body"⟩]

/-! ## Helper lemmas -/

theorem eval_pred (f : CfgPredicate → Bool) (p : CfgPredicate) :
    eval f (.pred p) = f p := by
  simp [eval]

theorem eval_not (f : CfgPredicate → Bool) (e : CfgExpr) :
    eval f (.notE e) = !(eval f e) := by
  simp [eval]


/-- A fold carrying the two flags of the classification loop computes the
disjunction and conjunction of the predicate over the list. -/
theorem foldl_or_and_flags {α : Type} (p : α → Bool) :
    ∀ (l : List α) (a b : Bool),
      l.foldl (fun acc x => if p x then (true, acc.2) else (acc.1, false)) (a, b)
        = (a || l.any p, b && l.all p) := by
  intro l
  induction l with
  | nil => intro a b; simp
  | cons x xs ih =>
    intro a b
    simp only [List.foldl_cons, List.any_cons, List.all_cons]
    by_cases h : p x = true <;> simp [h, ih]

/-- The catalog triples all resolve in the builtin target table, in
catalog order. -/
theorem catalog_resolves :
    SUPPORTED_PLATFORM_TRIPLES.filterMap get_builtin_target_by_triple = builtin_targets := by
  rfl

/-- On a successfully parsed expression, the classification returns the
disjunction and the conjunction of per-target matching over the catalog. -/
theorem is_bazel_supported_platform_eq (e : CfgExpr) :
    is_bazel_supported_platform (some e) =
      (builtin_targets.any (fun ti => eval (classification_leaf ti) e),
       builtin_targets.all (fun ti => eval (classification_leaf ti) e)) := by
  show (SUPPORTED_PLATFORM_TRIPLES.filterMap get_builtin_target_by_triple).foldl
      (fun acc target_info =>
        if eval (classification_leaf target_info) e then (true, acc.2) else (acc.1, false))
      (false, true) = _
  rw [catalog_resolves, foldl_or_and_flags]
  simp

/-- A successful builtin lookup returns the entry bearing the looked-up
triple identifier. -/
theorem lookup_triple_eq {t : String} {ti : TargetInfo}
    (h : get_builtin_target_by_triple t = some ti) : ti.triple = t := by
  have hp := List.find?_some h
  simpa using hp

/-- A filterMap whose function either keeps an element or drops it is a
filter. -/
theorem filterMap_eq_filter_of {α : Type} (f : α → Option α) (q : α → Bool)
    (h : ∀ a, f a = if q a then some a else none) :
    ∀ l : List α, l.filterMap f = l.filter q := by
  intro l
  induction l with
  | nil => rfl
  | cons x xs ih =>
    cases hq : q x <;>
      simp [List.filterMap_cons, List.filter_cons, h x, hq, ih]

/-- A find over a list whose prefix fails the predicate returns the first
succeeding element. -/
theorem find?_append_first {α : Type} (p : α → Bool) :
    ∀ (pre : List α) (bad : α) (post : List α),
      (∀ x ∈ pre, p x = false) → p bad = true →
      (pre ++ bad :: post).find? p = some bad := by
  intro pre
  induction pre with
  | nil =>
    intro bad post _ hbad
    simp [List.find?_cons_of_pos, hbad]
  | cons x xs ih =>
    intro bad post hpre hbad
    have hx : p x = false := hpre x (by simp)
    simp only [List.cons_append, List.find?_cons_of_neg, hx]
    rw [List.find?_cons_of_neg _ (by simp [hx])]
    exact ih bad post (fun y hy => hpre y (by simp [hy])) hbad

/-! ## Claim theorems: platform resolver -/

/-- C1: for every parse outcome of the (bare-triple-normalized) input
expression, `is_bazel_supported_platform` returns `(false, false)` on
parse failure, and otherwise the pair of the OR and the AND, over all 18
catalog triples, of whether the triple satisfies the expression under the
classification leaf semantics (target-attribute predicates match builtin
attributes, a key/value predicate with key `target` compares against the
exact triple identifier, every other predicate kind is false). -/
theorem is_bazel_supported_platform_or_and_over_catalog :
    SUPPORTED_PLATFORM_TRIPLES.length = 18 ∧
    is_bazel_supported_platform none = (false, false) ∧
    ∀ e : CfgExpr,
      is_bazel_supported_platform (some e) =
        ((SUPPORTED_PLATFORM_TRIPLES.filterMap get_builtin_target_by_triple).any
            (fun ti => eval (classification_leaf ti) e),
         (SUPPORTED_PLATFORM_TRIPLES.filterMap get_builtin_target_by_triple).all
            (fun ti => eval (classification_leaf ti) e)) := by
  refine ⟨rfl, rfl, fun e => ?_⟩
  rw [catalog_resolves]
  exact is_bazel_supported_platform_eq e

/-- C10: `is_bazel_supported_platform` never returns `(false, true)`:
since the compiled-in catalog is non-empty, whenever every catalog triple
matches at least one does, so the only reachable results are
`(false, false)`, `(true, false)` and `(true, true)`. -/
theorem is_bazel_supported_platform_never_false_true (parsed : Option CfgExpr) :
    is_bazel_supported_platform parsed = (false, false) ∨
    is_bazel_supported_platform parsed = (true, false) ∨
    is_bazel_supported_platform parsed = (true, true) := by
  cases parsed with
  | none => exact Or.inl rfl
  | some e =>
    rw [is_bazel_supported_platform_eq]
    cases hall : builtin_targets.all (fun ti => eval (classification_leaf ti) e) with
    | false =>
      cases hany : builtin_targets.any (fun ti => eval (classification_leaf ti) e) with
      | false => exact Or.inl rfl
      | true => exact Or.inr (Or.inl rfl)
    | true =>
      have hne : builtin_targets ≠ [] := by simp [builtin_targets]
      obtain ⟨x, hx⟩ := List.exists_mem_of_ne_nil builtin_targets hne
      have hpx := List.all_eq_true.mp hall x hx
      have hany : builtin_targets.any (fun ti => eval (classification_leaf ti) e) = true :=
        List.any_eq_true.mpr ⟨x, hx, hpx⟩
      rw [hany]
      exact Or.inr (Or.inr rfl)

/-- C2 (counterexample): on a bare triple belonging to the catalog, the
normalized key/value expression matches no catalog triple under the
matching-path leaf semantics, so the returned list is empty rather than
the singleton the claim demands. -/
theorem get_matching_bazel_triples_bare_triple_not_singleton :
    get_matching_bazel_triples
        (some (.pred (.keyValue "target" "x86_64-apple-darwin"))) = .ok [] ∧
    ([] : List String) ≠ ["x86_64-apple-darwin"] := by
  constructor
  · show Except.ok (SUPPORTED_PLATFORM_TRIPLES.filterMap _) = _
    rw [show (SUPPORTED_PLATFORM_TRIPLES.filterMap (fun triple =>
      match get_builtin_target_by_triple triple with
      | none => none
      | some target_info =>
        if eval (matching_leaf target_info)
            (.pred (.keyValue "target" "x86_64-apple-darwin"))
        then some target_info.triple
        else none)) = ([] : List String) from ?_]
    · apply List.filterMap_eq_nil_iff.mpr
      intro t _
      cases hl : get_builtin_target_by_triple t with
      | none => simp
      | some ti => simp [eval_pred, matching_leaf]
  · simp

/-- C2 (amended): `get_matching_bazel_triples` fails exactly on parse
failure, and otherwise returns, in catalog order, every catalog triple
whose attributes satisfy the expression under the matching-path leaf
semantics, in which only target-attribute predicates are consulted and
every other predicate kind (key/value pairs included) evaluates false; in
particular a bare-triple input, normalized to a key/value expression,
yields the empty list. -/
theorem get_matching_bazel_triples_parse_and_filter :
    get_matching_bazel_triples none = .error () ∧
    (∀ e : CfgExpr, ∃ ts,
      get_matching_bazel_triples (some e) = .ok ts ∧
      ts.Sublist SUPPORTED_PLATFORM_TRIPLES ∧
      (∀ t, t ∈ ts ↔ t ∈ SUPPORTED_PLATFORM_TRIPLES ∧
        ∃ ti, get_builtin_target_by_triple t = some ti ∧
          eval (matching_leaf ti) e = true)) ∧
    (∀ t, get_matching_bazel_triples (some (.pred (.keyValue "target" t))) = .ok []) := by
  refine ⟨rfl, fun e => ?_, fun t => ?_⟩
  · classical
    set q : String → Bool := fun t =>
      match get_builtin_target_by_triple t with
      | some ti => eval (matching_leaf ti) e
      | none => false with hq
    have hpt : ∀ t : String,
        (match get_builtin_target_by_triple t with
          | none => none
          | some target_info =>
            if eval (matching_leaf target_info) e
            then some target_info.triple
            else none) = if q t then some t else none := by
      intro t
      cases hl : get_builtin_target_by_triple t with
      | none => simp [hq, hl]
      | some ti =>
        have ht := lookup_triple_eq hl
        cases he : eval (matching_leaf ti) e <;> simp [hq, hl, he, ht]
    have hres : get_matching_bazel_triples (some e) =
        .ok (SUPPORTED_PLATFORM_TRIPLES.filter q) := by
      show Except.ok _ = _
      rw [filterMap_eq_filter_of _ q hpt]
    refine ⟨SUPPORTED_PLATFORM_TRIPLES.filter q, hres, List.filter_sublist _, fun t => ?_⟩
    rw [List.mem_filter]
    constructor
    · rintro ⟨hmem, hqt⟩
      refine ⟨hmem, ?_⟩
      cases hl : get_builtin_target_by_triple t with
      | none => rw [hq] at hqt; simp [hl] at hqt
      | some ti =>
        refine ⟨ti, rfl, ?_⟩
        rw [hq] at hqt
        simpa [hl] using hqt
    · rintro ⟨hmem, ti, hl, he⟩
      refine ⟨hmem, ?_⟩
      rw [hq]
      simp [hl, he]
  · show Except.ok _ = _
    congr 1
    apply List.filterMap_eq_nil_iff.mpr
    intro x _
    cases hl : get_builtin_target_by_triple x with
    | none => simp
    | some ti => simp [eval_pred, matching_leaf]

/-- C4 (counterexample): with an empty whitelist the function returns
before any sort, so an unsorted input comes back unsorted, refuting the
claim that the output is always sorted lexicographically. -/
theorem filter_bazel_triples_empty_whitelist_unsorted :
    filter_bazel_triples ["b", "a"] [] = ["b", "a"] ∧
    ¬ List.Sorted str_le ["b", "a"] := by
  refine ⟨rfl, ?_⟩
  intro h
  have hba := List.rel_of_sorted_cons h "a" (by simp)
  revert hba
  decide

/-- C4 (amended): with an empty whitelist `filter_bazel_triples` is a
complete no-op (content and order unchanged, no sorting); with a non-empty
whitelist it retains exactly the triples present in the whitelist and
sorts them lexicographically; and the operation is idempotent: filtering
an already-filtered list with the same whitelist yields the same list. -/
theorem filter_bazel_triples_noop_filter_sort :
    (∀ l : List String, filter_bazel_triples l [] = l) ∧
    (∀ (l w : List String), w ≠ [] →
      (filter_bazel_triples l w).Perm
          (l.filter (fun t => w.any (fun i => i == t))) ∧
      List.Sorted str_le (filter_bazel_triples l w)) ∧
    (∀ l w : List String,
      filter_bazel_triples (filter_bazel_triples l w) w = filter_bazel_triples l w) := by
  refine ⟨fun l => rfl, fun l w hw => ?_, fun l w => ?_⟩
  · have hlen : ¬ (w.length = 0) := by simpa using hw
    have heq : filter_bazel_triples l w =
        List.insertionSort str_le (l.filter (fun t => w.any (fun i => i == t))) := by
      unfold filter_bazel_triples
      rw [if_neg hlen]
    rw [heq]
    exact ⟨List.perm_insertionSort _ _, List.sorted_insertionSort _ _⟩
  · by_cases hlen : w.length = 0
    · simp [filter_bazel_triples, hlen]
    · unfold filter_bazel_triples
      rw [if_neg hlen, if_neg hlen]
      set p : String → Bool := fun t => w.any (fun i => i == t) with hp
      set s := List.insertionSort str_le (l.filter p) with hs
      have hall : ∀ x ∈ s, p x = true := by
        intro x hx
        have hx2 : x ∈ l.filter p := (List.perm_insertionSort str_le (l.filter p)).mem_iff.mp hx
        exact List.of_mem_filter hx2
      rw [List.filter_eq_self.mpr hall]
      exact List.Sorted.insertionSort_eq (List.sorted_insertionSort str_le (l.filter p))

/-- C4 (witness): the amended theorem evaluated at concrete inputs: the
empty whitelist leaves a singleton untouched, and a non-empty whitelist
yields a sorted result. -/
theorem filter_bazel_triples_noop_filter_sort_witness :
    filter_bazel_triples ["b"] [] = ["b"] ∧
    List.Sorted str_le (filter_bazel_triples ["b", "a"] ["a", "b"]) :=
  ⟨filter_bazel_triples_noop_filter_sort.1 ["b"],
   (filter_bazel_triples_noop_filter_sort.2.1 ["b", "a"] ["a", "b"] (by simp)).2⟩

/-- C8: `generate_bazel_conditions` is all-or-nothing: whenever the input
list decomposes as a valid prefix, a first triple missing from the builtin
lookup, and a remainder, the call fails with an error naming that first
offending triple and produces no output, wherever the invalid entry sits;
and for a list of valid triples it returns the platform-selector labels,
sorted lexicographically. -/
theorem generate_bazel_conditions_all_or_nothing :
    (∀ (ts : List String) (pre : List String) (bad : String) (post : List String),
      ts = pre ++ bad :: post →
      (∀ x ∈ pre, get_builtin_target_by_triple x ≠ none) →
      get_builtin_target_by_triple bad = none →
      generate_bazel_conditions ts = .error ("Not a triple: " ++ bad)) ∧
    (∀ ts : List String,
      (∀ t ∈ ts, get_builtin_target_by_triple t ≠ none) →
      ∃ out, generate_bazel_conditions ts = .ok out ∧
        out.Perm (ts.map (fun t => "@io_bazel_rules_rust//rust/platform:" ++ t)) ∧
        List.Sorted str_le out) := by
  constructor
  · intro ts pre bad post hdecomp hpre hbad
    have hfind : ts.find? (fun t => (get_builtin_target_by_triple t).isNone) = some bad := by
      rw [hdecomp]
      apply find?_append_first
      · intro x hx
        simpa [Option.isSome_iff_ne_none] using hpre x hx
      · simpa [Option.isNone_iff_eq_none] using hbad
    unfold generate_bazel_conditions
    rw [hfind]
  · intro ts hvalid
    have hfind : ts.find? (fun t => (get_builtin_target_by_triple t).isNone) = none := by
      apply List.find?_eq_none.mpr
      intro x hx
      simpa [Option.isSome_iff_ne_none] using hvalid x hx
    refine ⟨List.insertionSort str_le
        (ts.map (fun t => "@io_bazel_rules_rust//rust/platform:" ++ t)), ?_, ?_, ?_⟩
    · unfold generate_bazel_conditions
      rw [hfind]
    · exact List.perm_insertionSort _ _
    · exact List.sorted_insertionSort _ _

/-- C8 (witness): the all-or-nothing theorem evaluated at concrete
inputs: a list whose second entry is unknown fails naming that entry, and
a valid singleton list succeeds with the sorted label list. -/
theorem generate_bazel_conditions_all_or_nothing_witness :
    generate_bazel_conditions ["aarch64-unknown-linux-gnu", "unknown-unknown-unknown"]
      = .error ("Not a triple: " ++ "unknown-unknown-unknown") ∧
    generate_bazel_conditions ["aarch64-unknown-linux-gnu"]
      = .ok ["@io_bazel_rules_rust//rust/platform:aarch64-unknown-linux-gnu"] := by
  refine ⟨generate_bazel_conditions_all_or_nothing.1 _ ["aarch64-unknown-linux-gnu"]
      "unknown-unknown-unknown" [] rfl (by decide) (by decide), ?_⟩
  obtain ⟨out, hok, hperm, hsort⟩ :=
    generate_bazel_conditions_all_or_nothing.2 ["aarch64-unknown-linux-gnu"] (by decide)
  rw [hok]
  have hperm2 : out.Perm
      ["@io_bazel_rules_rust//rust/platform:aarch64-unknown-linux-gnu"] := by
    simpa using hperm
  rw [List.perm_singleton.mp hperm2]

/-! ## Helper lemmas and fixtures for the renderer -/

/-- Success of a bind in the Except monad splits into successes of both
stages. -/
theorem except_bind_ok {ε α β : Type} (x : Except ε α) (f : α → Except ε β) (b : β) :
    (x >>= f) = Except.ok b ↔ ∃ a, x = Except.ok a ∧ f a = Except.ok b := by
  cases x <;> simp [Bind.bind, Except.bind]

/-- Mapping the error of an Except value does not affect success. -/
theorem except_mapError_ok {ε ε' α : Type} (g : ε → ε') (x : Except ε α) (b : α) :
    x.mapError g = Except.ok b ↔ x = Except.ok b := by
  cases x <;> simp [Except.mapError]

/-- On success the vendor per-crate loop emits one output per crate, in
input order, at the prefixed expected build path. -/
theorem vendor_crate_outputs_paths (r : BazelRenderer)
    (rts : String → Except String String) (pp : String) (ws : WorkspaceContext) :
    ∀ (crates : List CrateContext) (outs : List FileOutputs),
      vendor_crate_outputs r rts pp ws crates = .ok outs →
      outs.map FileOutputs.path =
        crates.map (fun c => pp ++ "/" ++ c.expected_build_path) := by
  intro crates
  induction crates with
  | nil =>
    intro outs h
    simp only [vendor_crate_outputs, Except.ok.injEq] at h
    subst h
    simp
  | cons c rest ih =>
    intro outs h
    simp only [vendor_crate_outputs] at h
    rw [except_bind_ok] at h
    obtain ⟨rendered, hr, h⟩ := h
    rw [except_bind_ok] at h
    obtain ⟨final, hf, h⟩ := h
    rw [except_bind_ok] at h
    obtain ⟨outs2, hrec, h⟩ := h
    simp only [pure, Except.pure, Except.ok.injEq] at h
    subst h
    simp [ih outs2 hrec]

/-- On success the remote per-crate loop emits one output per crate, in
input order, at the prefixed expected build path. -/
theorem remote_crate_outputs_paths (r : BazelRenderer)
    (rts : String → Except String String) (pp : String) (ws : WorkspaceContext) :
    ∀ (crates : List CrateContext) (outs : List FileOutputs),
      remote_crate_outputs r rts pp ws crates = .ok outs →
      outs.map FileOutputs.path =
        crates.map (fun c => pp ++ "/" ++ c.expected_build_path) := by
  intro crates
  induction crates with
  | nil =>
    intro outs h
    simp only [remote_crate_outputs, Except.ok.injEq] at h
    subst h
    simp
  | cons c rest ih =>
    intro outs h
    simp only [remote_crate_outputs] at h
    rw [except_bind_ok] at h
    obtain ⟨rendered, hr, h⟩ := h
    rw [except_bind_ok] at h
    obtain ⟨final, hf, h⟩ := h
    rw [except_bind_ok] at h
    obtain ⟨outs2, hrec, h⟩ := h
    simp only [pure, Except.pure, Except.ok.injEq] at h
    subst h
    simp [ih outs2 hrec]

/-- On success the remote entry point produces the placeholder path, the
per-crate paths in input order, the alias path and the crates.bzl path. -/
theorem render_remote_shape (r : BazelRenderer)
    (rts : String → Except String String) (rd : RenderDetails) (pb : PlannedBuild)
    (outs : List FileOutputs) (h : render_remote_planned_build r rts rd pb = .ok outs) :
    ∃ crate_outs alias_contents fetch_contents,
      remote_crate_outputs r rts ( RenderDetails.path_prefix rd) pb.workspace_context pb.crate_contexts
        = .ok crate_outs ∧
      r.render_remote_aliases pb.workspace_context pb.crate_contexts = .ok alias_contents ∧
      r.render_bzl_fetch pb.workspace_context pb.crate_contexts = .ok fetch_contents ∧
      outs = ⟨ RenderDetails.path_prefix rd ++ "/remote/" ++ rd.buildfile_suffix, ""⟩ ::
        (crate_outs ++
          [⟨ RenderDetails.path_prefix rd ++ "/" ++ rd.buildfile_suffix, alias_contents⟩,
           ⟨ RenderDetails.path_prefix rd ++ "/crates.bzl", fetch_contents⟩]) := by
  simp only [render_remote_planned_build] at h
  rw [except_bind_ok] at h
  obtain ⟨crate_outs, hc, h⟩ := h
  rw [except_bind_ok] at h
  obtain ⟨alias_contents, ha, h⟩ := h
  rw [except_bind_ok] at h
  obtain ⟨fetch_contents, hf, h⟩ := h
  simp only [pure, Except.pure, Except.ok.injEq] at h
  rw [except_mapError_ok] at ha
  rw [except_mapError_ok] at hf
  exact ⟨crate_outs, alias_contents, fetch_contents, hc, ha, hf, h.symm⟩

/-- Appending a path segment after the separator matches the nested
remote-directory path. -/
theorem append_slash_remote (pp rest : String) :
    pp ++ "/" ++ ("remote/" ++ rest) = pp ++ "/remote/" ++ rest := by
  rw [String.append_assoc, String.append_assoc]
  congr 1

/-! ## Claim theorems: renderer -/

/-- C6: a successful vendor-mode render of N crates returns exactly N+1
file outputs: one per crate at the prefixed expected build path, in input
crate-list order, followed by the root build file at the prefixed
buildfile suffix; in particular an empty crate list yields exactly the
root build file. -/
theorem render_planned_build_output_shape
    (r : BazelRenderer) (rts : String → Except String String)
    (rd : RenderDetails) (pb : PlannedBuild) (outs : List FileOutputs)
    (h : render_planned_build r rts rd pb = .ok outs) :
    outs.map FileOutputs.path =
      pb.crate_contexts.map (fun c => RenderDetails.path_prefix rd ++ "/" ++ c.expected_build_path)
        ++ [ RenderDetails.path_prefix rd ++ "/" ++ rd.buildfile_suffix] ∧
    outs.length = pb.crate_contexts.length + 1 := by
  simp only [render_planned_build] at h
  rw [except_bind_ok] at h
  obtain ⟨crate_outs, hc, h⟩ := h
  rw [except_bind_ok] at h
  obtain ⟨alias_contents, ha, h⟩ := h
  simp only [pure, Except.pure, Except.ok.injEq] at h
  subst h
  have hpaths := vendor_crate_outputs_paths r rts ( RenderDetails.path_prefix rd) pb.workspace_context
    pb.crate_contexts crate_outs hc
  have hlen : crate_outs.length = pb.crate_contexts.length := by
    have := congrArg List.length hpaths
    simpa using this
  constructor
  · simp [hpaths]
  · simp [hlen]

/-- C6 (witness): the vendor-mode shape theorem evaluated on the fixture
run with one crate. -/
theorem render_planned_build_output_shape_witness :
    sample_vendor_outs.map FileOutputs.path =
      [sample_crate].map
        (fun c => RenderDetails.path_prefix sample_details ++ "/" ++ c.expected_build_path)
        ++ [ RenderDetails.path_prefix sample_details ++ "/" ++ sample_details.buildfile_suffix] ∧
    sample_vendor_outs.length = [sample_crate].length + 1 :=
  render_planned_build_output_shape ok_renderer no_fs sample_details
    ⟨sample_workspace, [sample_crate]⟩ sample_vendor_outs rfl

/-- C7: a successful remote-mode render of N crates returns exactly N+3
file outputs: the empty placeholder at the prefixed remote buildfile
suffix first, the N per-crate files in input order, the alias file at the
non-remote path, and the crates.bzl fetch file last, whose contents are
the successful fetch-template render; the modelled fetch-declarations
file lists one invocation per crate, in crate-list order. -/
theorem render_remote_planned_build_output_shape
    (r : BazelRenderer) (rts : String → Except String String)
    (rd : RenderDetails) (pb : PlannedBuild) (outs : List FileOutputs)
    (h : render_remote_planned_build r rts rd pb = .ok outs) :
    outs.map FileOutputs.path =
      ( RenderDetails.path_prefix rd ++ "/remote/" ++ rd.buildfile_suffix) ::
        (pb.crate_contexts.map (fun c => RenderDetails.path_prefix rd ++ "/" ++ c.expected_build_path)
          ++ [ RenderDetails.path_prefix rd ++ "/" ++ rd.buildfile_suffix,
              RenderDetails.path_prefix rd ++ "/crates.bzl"]) ∧
    outs.length = pb.crate_contexts.length + 3 ∧
    outs.head?.map FileOutputs.contents = some "" ∧
    (∃ fetch_contents,
      r.render_bzl_fetch pb.workspace_context pb.crate_contexts = .ok fetch_contents ∧
      outs.getLast? = some ⟨ RenderDetails.path_prefix rd ++ "/crates.bzl", fetch_contents⟩) ∧
    (fetch_declarations pb.crate_contexts).length = pb.crate_contexts.length ∧
    (∀ i : Nat, (fetch_declarations pb.crate_contexts)[i]? =
      (pb.crate_contexts[i]?).map
        (fun c => FetchDecl.mk c.pkg_name c.pkg_version c.sha256 c.registry_url)) := by
  obtain ⟨crate_outs, alias_contents, fetch_contents, hc, ha, hf, houts⟩ :=
    render_remote_shape r rts rd pb outs h
  have hpaths := remote_crate_outputs_paths r rts ( RenderDetails.path_prefix rd) pb.workspace_context
    pb.crate_contexts crate_outs hc
  have hlen : crate_outs.length = pb.crate_contexts.length := by
    have := congrArg List.length hpaths
    simpa using this
  subst houts
  refine ⟨by simp [hpaths], by simp [hlen], by simp, ⟨fetch_contents, hf, ?_⟩, by
    simp [fetch_declarations], fun i => by simp [fetch_declarations]⟩
  have hsplit :
      (⟨ RenderDetails.path_prefix rd ++ "/remote/" ++ rd.buildfile_suffix, ""⟩ :: (crate_outs ++
          [⟨ RenderDetails.path_prefix rd ++ "/" ++ rd.buildfile_suffix, alias_contents⟩,
           ⟨ RenderDetails.path_prefix rd ++ "/crates.bzl", fetch_contents⟩]) : List FileOutputs)
        = (⟨ RenderDetails.path_prefix rd ++ "/remote/" ++ rd.buildfile_suffix, ""⟩ :: (crate_outs ++
            [⟨ RenderDetails.path_prefix rd ++ "/" ++ rd.buildfile_suffix, alias_contents⟩]))
          ++ [⟨ RenderDetails.path_prefix rd ++ "/crates.bzl", fetch_contents⟩] := by
    simp
  rw [hsplit, List.getLast?_concat]

/-- C7 (witness): the remote-mode shape theorem evaluated on the fixture
run with one crate. -/
theorem render_remote_planned_build_output_shape_witness :
    sample_remote_outs.map FileOutputs.path =
      ( RenderDetails.path_prefix sample_details ++ "/remote/" ++ sample_details.buildfile_suffix) ::
        ([sample_remote_crate].map
            (fun c => RenderDetails.path_prefix sample_details ++ "/" ++ c.expected_build_path)
          ++ [ RenderDetails.path_prefix sample_details ++ "/" ++ sample_details.buildfile_suffix,
              RenderDetails.path_prefix sample_details ++ "/crates.bzl"]) ∧
    sample_remote_outs.length = [sample_remote_crate].length + 3 ∧
    sample_remote_outs.head?.map FileOutputs.contents = some "" ∧
    (fetch_declarations [sample_remote_crate])[0]? =
      some (FetchDecl.mk "test-binary" "1.1.1" none
        "https://crates.io/api/v1/crates/test-binary/1.1.1/download") := by
  have h := render_remote_planned_build_output_shape ok_renderer no_fs sample_details
    ⟨sample_workspace, [sample_remote_crate]⟩ sample_remote_outs rfl
  exact ⟨h.1, h.2.1, h.2.2.1, by simpa using h.2.2.2.2.2 0⟩

/-- C3: on a successful remote-mode render, every crate whose expected
build path is nested under the remote segment has its build file emitted
at a path nested under the remote directory beneath the output prefix; in
particular, under the spec-modelled remote planning invariant, this holds
of every crate of the planned build. -/
theorem render_remote_planned_build_crates_under_remote
    (r : BazelRenderer) (rts : String → Except String String)
    (rd : RenderDetails) (pb : PlannedBuild) (outs : List FileOutputs)
    (h : render_remote_planned_build r rts rd pb = .ok outs) :
    (∀ c ∈ pb.crate_contexts, ∀ rest : String,
      c.expected_build_path = "remote/" ++ rest →
      ( RenderDetails.path_prefix rd ++ "/remote/" ++ rest) ∈ outs.map FileOutputs.path) ∧
    (remote_planned pb →
      ∀ c ∈ pb.crate_contexts, ∃ rest : String,
        c.expected_build_path = "remote/" ++ rest ∧
        ( RenderDetails.path_prefix rd ++ "/remote/" ++ rest) ∈ outs.map FileOutputs.path) := by
  obtain ⟨crate_outs, alias_contents, fetch_contents, hc, ha, hf, houts⟩ :=
    render_remote_shape r rts rd pb outs h
  have hpaths := remote_crate_outputs_paths r rts ( RenderDetails.path_prefix rd) pb.workspace_context
    pb.crate_contexts crate_outs hc
  have hpart : ∀ c ∈ pb.crate_contexts, ∀ rest : String,
      c.expected_build_path = "remote/" ++ rest →
      ( RenderDetails.path_prefix rd ++ "/remote/" ++ rest) ∈ outs.map FileOutputs.path := by
    intro c hcmem rest hrest
    have hmem : RenderDetails.path_prefix rd ++ "/" ++ c.expected_build_path ∈ outs.map FileOutputs.path := by
      subst houts
      simp only [List.map_cons, List.map_append, hpaths]
      exact List.mem_cons_of_mem _ (List.mem_append_left _ (List.mem_map_of_mem _ hcmem))
    rw [hrest, append_slash_remote] at hmem
    exact hmem
  refine ⟨hpart, fun hplan c hcmem => ?_⟩
  obtain ⟨rest, hrest⟩ := hplan c hcmem
  exact ⟨rest, hrest, hpart c hcmem rest hrest⟩

/-- C3 (witness): the nesting theorem evaluated on the remote fixture
run. -/
theorem render_remote_planned_build_crates_under_remote_witness :
    ( RenderDetails.path_prefix sample_details ++ "/remote/" ++ "test-binary-1.1.1.BUILD")
      ∈ sample_remote_outs.map FileOutputs.path :=
  (render_remote_planned_build_crates_under_remote ok_renderer no_fs sample_details
      ⟨sample_workspace, [sample_remote_crate]⟩ sample_remote_outs rfl).1
    sample_remote_crate (by simp) "test-binary-1.1.1.BUILD" rfl

/-- C5 (counterexample): in vendor mode a per-crate template failure is
reported with crate name `none` even though the owning crate is known,
refuting the claim that per-crate rendering failures carry the owning
crate name in both entry points. -/
theorem render_planned_build_error_drops_crate_name :
    render_planned_build fail_crate_renderer no_fs sample_details
        ⟨sample_workspace, [sample_crate]⟩ =
      .error (.rendering none ("boom" ++ "\n└─" ++ "cause")) ∧
    sample_crate.pkg_name = "test-binary" ∧
    (none : Option String) ≠ some "test-binary" := by
  refine ⟨?_, rfl, by simp⟩
  rfl

/-- C5 (amended): a per-crate template failure in
`render_remote_planned_build` carries the owning crate name, but in
`render_planned_build` (vendor mode) it carries `none`; root alias-file
failures carry `none`; and in every case the message is the cause chain
flattened top-to-bottom, joined with the indent marker. -/
theorem render_error_crate_attribution :
    (∀ (r : BazelRenderer) (rts : String → Except String String) (rd : RenderDetails)
        (ws : WorkspaceContext) (c : CrateContext) (rest : List CrateContext)
        (e : TeraError),
      r.render_crate ws c = .error e →
      render_planned_build r rts rd ⟨ws, c :: rest⟩ =
        .error (.rendering none (unwind_tera_error e))) ∧
    (∀ (r : BazelRenderer) (rts : String → Except String String) (rd : RenderDetails)
        (ws : WorkspaceContext) (c : CrateContext) (rest : List CrateContext)
        (e : TeraError),
      r.render_remote_crate ws c = .error e →
      render_remote_planned_build r rts rd ⟨ws, c :: rest⟩ =
        .error (.rendering (some c.pkg_name) (unwind_tera_error e))) ∧
    (∀ (r : BazelRenderer) (rts : String → Except String String) (rd : RenderDetails)
        (ws : WorkspaceContext) (e : TeraError),
      r.render_aliases ws ([] : List CrateContext) = .error e →
      render_planned_build r rts rd ⟨ws, []⟩ =
        .error (.rendering none (unwind_tera_error e))) ∧
    (∀ e : TeraError,
      unwind_tera_error e = String.intercalate "\n└─" (e.message :: e.causes)) := by
  refine ⟨?_, ?_, ?_, fun e => rfl⟩
  · intro r rts rd ws c rest e he
    simp [render_planned_build, vendor_crate_outputs, he, Except.mapError,
      Bind.bind, Except.bind]
  · intro r rts rd ws c rest e he
    simp [render_remote_planned_build, remote_crate_outputs, he, Except.mapError,
      Bind.bind, Except.bind]
  · intro r rts rd ws e he
    simp [render_planned_build, vendor_crate_outputs, he, Except.mapError,
      Bind.bind, Except.bind, pure, Except.pure]

/-- C5 (witness): the attribution theorem evaluated on the failing
fixture renderer in vendor mode. -/
theorem render_error_crate_attribution_witness :
    render_planned_build fail_crate_renderer no_fs sample_details
        ⟨sample_workspace, [sample_crate]⟩ =
      .error (.rendering none (unwind_tera_error ⟨"boom", ["cause"]⟩)) :=
  render_error_crate_attribution.1 fail_crate_renderer no_fs sample_details
    sample_workspace sample_crate [] ⟨"boom", ["cause"]⟩ rfl

/-- C9: for a crate declaring an additional build file, an unreadable
path makes the splice (and with it the whole vendor render call) fail
with an error naming the crate and embedding the underlying read message;
a readable path appends the exact file contents after the generated body,
preceded by the provenance comment naming the source path; and a crate
with no additional build file passes its generated body through
unchanged. -/
theorem additional_build_file_splicing :
    (∀ (rts : String → Except String String) (pkg : CrateContext) (body fp e : String),
      pkg.raze_settings.additional_build_file = some fp →
      rts fp = .error e →
      include_additional_build_file rts pkg body =
        .error (.rendering (some pkg.pkg_name)
          ("failed to read additional_build_file: " ++ e))) ∧
    (∀ (rts : String → Except String String) (pkg : CrateContext)
        (body fp content : String),
      pkg.raze_settings.additional_build_file = some fp →
      rts fp = .ok content →
      include_additional_build_file rts pkg body =
        .ok (body ++ "\n# Additional content from " ++ fp ++ "\n" ++ content)) ∧
    (∀ (rts : String → Except String String) (pkg : CrateContext) (body : String),
      pkg.raze_settings.additional_build_file = none →
      include_additional_build_file rts pkg body = .ok body) ∧
    (∀ (r : BazelRenderer) (rts : String → Except String String) (rd : RenderDetails)
        (ws : WorkspaceContext) (c : CrateContext) (rest : List CrateContext)
        (body fp e : String),
      r.render_crate ws c = .ok body →
      c.raze_settings.additional_build_file = some fp →
      rts fp = .error e →
      render_planned_build r rts rd ⟨ws, c :: rest⟩ =
        .error (.rendering (some c.pkg_name)
          ("failed to read additional_build_file: " ++ e))) ∧
    (∀ (r : BazelRenderer) (rts : String → Except String String) (rd : RenderDetails)
        (ws : WorkspaceContext) (c : CrateContext)
        (body fp content alias_contents : String),
      r.render_crate ws c = .ok body →
      c.raze_settings.additional_build_file = some fp →
      rts fp = .ok content →
      r.render_aliases ws [c] = .ok alias_contents →
      render_planned_build r rts rd ⟨ws, [c]⟩ =
        .ok [⟨ RenderDetails.path_prefix rd ++ "/" ++ c.expected_build_path,
              body ++ "\n# Additional content from " ++ fp ++ "\n" ++ content⟩,
             ⟨ RenderDetails.path_prefix rd ++ "/" ++ rd.buildfile_suffix, alias_contents⟩]) := by
  refine ⟨?_, ?_, ?_, ?_, ?_⟩
  · intro rts pkg body fp e hfp he
    simp [include_additional_build_file, hfp, he]
  · intro rts pkg body fp content hfp hc
    simp [include_additional_build_file, hfp, hc]
  · intro rts pkg body hfp
    simp [include_additional_build_file, hfp]
  · intro r rts rd ws c rest body fp e hb hfp he
    simp [render_planned_build, vendor_crate_outputs, hb, hfp, he,
      include_additional_build_file, Except.mapError, Bind.bind, Except.bind]
  · intro r rts rd ws c body fp content alias_contents hb hfp hc ha
    simp [render_planned_build, vendor_crate_outputs, hb, hfp, hc, ha,
      include_additional_build_file, Except.mapError, Bind.bind, Except.bind,
      pure, Except.pure]

/-- C9 (witness): the splicing theorem evaluated on the fixture crate
declaring README.md as additional build file, against a filesystem on
which the read succeeds and one on which it fails. -/
theorem additional_build_file_splicing_witness :
    include_additional_build_file fs_readme crate_with_additional "body" =
      .ok ("body" ++ "\n# Additional content from " ++ "README.md" ++ "\n"
        ++ "extra content") ∧
    include_additional_build_file no_fs crate_with_additional "body" =
      .error (.rendering (some "test-library")
        ("failed to read additional_build_file: " ++ "No such file")) :=
  ⟨additional_build_file_splicing.2.1 fs_readme crate_with_additional "body"
      "README.md" "extra content" rfl rfl,
   additional_build_file_splicing.1 no_fs crate_with_additional "body"
      "README.md" "No such file" rfl rfl⟩

/-! ## Sanity checks mirroring the detect-bazel-platforms test of the
repository -/

example : is_bazel_supported_platform
    (some (.notE (.pred .other))) = (true, true) := by
  rw [is_bazel_supported_platform_eq]
  simp only [eval_not, eval_pred]
  decide

example : is_bazel_supported_platform
    (some (.pred (.target (.family "unix")))) = (true, false) := by
  rw [is_bazel_supported_platform_eq]
  simp only [eval_pred]
  decide

example : is_bazel_supported_platform
    (some (.notE (.pred (.target (.family "windows"))))) = (true, false) := by
  rw [is_bazel_supported_platform_eq]
  simp only [eval_not, eval_pred]
  decide

example : is_bazel_supported_platform
    (some (.pred (.keyValue "target" "x86_64-apple-darwin"))) = (true, false) := by
  rw [is_bazel_supported_platform_eq]
  simp only [eval_pred]
  decide

example : is_bazel_supported_platform
    (some (.pred (.keyValue "target" "unknown-unknown-unknown"))) = (false, false) := by
  rw [is_bazel_supported_platform_eq]
  simp only [eval_pred]
  decide

example : is_bazel_supported_platform
    (some (.pred (.target (.os "redox")))) = (false, false) := by
  rw [is_bazel_supported_platform_eq]
  simp only [eval_pred]
  decide
